import Mathlib

/-!
# Verification of `packages/app/src/app/overmind/factories.ts`

Shallow embedding of the three factories exported by `factories.ts`:

* `createModals` — the modal factory, embedded as an explicit state record
  (`ModalsState`) with `openModal` / `close` state transformers.  The per-modal
  JS closure variable `resolver` is modelled as a map from modal name to an
  optional promise id; the promise store is a list indexed by promise id.
* `withLoadApp` — the one-time bootstrap gate, embedded as a sequential state
  transformer over `AppState` that also emits a trace of effect events (`Ev`).
  External fallible collaborators (`api.getCurrentUser`, `live.getSocket`,
  `http.get`, …) are driven by an oracle record `LEnv`.
* `withOwnedSandbox` — the ownership gate, embedded over `OSState` with an
  oracle `OSEnv`; the outcome of the wrapped action is which of the continuation /
  cancellation actions ran, and exceptions travel in `Except`, so that "never
  thrown" is a provable statement.

All definitions are translated from the TypeScript source; asynchrony is
sequential `await` chaining in the source, so the embedding is direct
sequential composition.
-/

/-- Declaration of one modal: the JS values stored in its per-modal state object (shallow fields). -/
structure ModalDef (V ρ : Type) where
  /-- the declared initial `state` fields of the modal -/
  initState : List (String × V)
  /-- the declared default `result` of the modal (`modal.result`; `none` = `undefined`) -/
  result : Option ρ
deriving Repr

/-- Status of one JS promise created by a modal `open` call. -/
inductive PromiseStatus (ρ : Type) where
  | pending
  | resolved (v : Option ρ)
deriving Repr, DecidableEq

/-- The modal subsystem state produced by `createModals`:
`current` is the global current-modal selector (`state.modals.current`),
`modalData` the per-modal state objects (`state.modals[name]`),
`resolvers` the per-modal closure variable `resolver` (as a map name ↦
promise id), and `promises` the store of promises returned by `open`. -/
structure ModalsState (V ρ : Type) where
  current : Option String
  modalData : String → List (String × V)
  resolvers : String → Option Nat
  promises : List (PromiseStatus ρ)

/-- Shallow merge in the sense of `Object.assign(base, upd)`: bindings of
`upd` override bindings of `base`, other bindings of `base` survive. -/
def assign {V : Type} (base upd : List (String × V)) : List (String × V) :=
  base.filter (fun p => ¬ (upd.map Prod.fst).contains p.1) ++ upd

/-- Aggregate initial state built by `createModals(modals)` — `current: null`, each
declared initial modal state under its name, no resolver installed yet,
no promise created yet. -/
def createModals {V ρ : Type} (modals : List (String × ModalDef V ρ)) : ModalsState V ρ :=
  { current := none
    modalData := fun n =>
      match modals.lookup n with
      | some d => d.initState
      | none => []
    resolvers := fun _ => none
    promises := [] }

/-- The derived `isCurrent` getter of each per-modal state:
`root.modals.current === name`. -/
def isCurrent {V ρ : Type} (name : String) (s : ModalsState V ρ) : Bool :=
  s.current == some name

/-- The `open` action of the modal named `name` (renamed `openModal`:
`open` is a Lean keyword).  Sets `state.modals.current = name`,
`Object.assign(state.modals[name], newState)`, then returns a fresh pending
promise and stores its resolver in the per-modal `resolver` closure variable.
Returns the new state together with the id of the promise `open` returned. -/
def openModal {V ρ : Type} (name : String) (newState : List (String × V))
    (s : ModalsState V ρ) : ModalsState V ρ × Nat :=
  ({ current := some name
     modalData := fun n =>
       if n = name then assign (s.modalData n) newState else s.modalData n
     resolvers := fun n =>
       if n = name then some s.promises.length else s.resolvers n
     promises := s.promises ++ [PromiseStatus.pending] },
   s.promises.length)

/-- The value of the JS expression `payload || modal.result`: the payload
when it is present and truthy, the declared default result otherwise. -/
def closeValue {ρ : Type} (truthy : ρ → Bool) (defaultResult payload : Option ρ) : Option ρ :=
  match payload with
  | some p => if truthy p then some p else defaultResult
  | none => defaultResult

/-- The `close` action of the modal named `name`, whose declared default
result is `defaultResult` (`modal.result`) — `truthy` is JS truthiness on the
result type.  Sets `state.modals.current = null`, then calls
`resolver(payload || modal.result)`.  The returned `Bool` is `true` iff the
call threw (`resolver` is `undefined` when no `open` installed one, and the
source calls it unconditionally: a `TypeError`). -/
def close {V ρ : Type} (truthy : ρ → Bool) (defaultResult : Option ρ) (name : String)
    (payload : Option ρ) (s : ModalsState V ρ) : ModalsState V ρ × Bool :=
  let s1 : ModalsState V ρ := { s with current := none }
  match s1.resolvers name with
  | none => (s1, true)
  | some pid =>
      ({ s1 with
          promises :=
            s1.promises.set pid (PromiseStatus.resolved (closeValue truthy defaultResult payload)) },
       false)

/-- A sequence of `open` calls (name, newState), applied left to right,
discarding the returned promise ids. -/
def openSeq {V ρ : Type} (ops : List (String × List (String × V)))
    (s : ModalsState V ρ) : ModalsState V ρ :=
  ops.foldl (fun acc op => (openModal op.1 op.2 acc).1) s

/-! ## `withLoadApp` -/

/-- The user record returned by `effects.api.getCurrentUser()` (the two
fields the bootstrap sequence reads). -/
structure User where
  id : String
  email : String
deriving Repr, DecidableEq

/-- An entry of the `contributors` list of the remote `.all-contributorsrc` file. -/
structure Contributor where
  login : String
deriving Repr, DecidableEq

/-- The slice of overmind state read and written by `withLoadApp`, plus the
two pieces of browser state it touches (`localStorage.jwt` presence and the
`signedIn` cookie). -/
structure AppState where
  hasLoadedApp : Bool
  isAuthenticating : Bool
  hasLogIn : Bool
  user : Option User
  contributors : Option (List String)
  dashboardActiveTeam : Option String
  localStorageJwt : Bool
  signedInCookieCleared : Bool
deriving Repr, DecidableEq

/-- Oracle for the external collaborators `withLoadApp` awaits or calls:
which fallible effects fail, and what the successful ones return. -/
structure LEnv where
  /-- whether `effects.api.getCurrentUser()` rejects -/
  getCurrentUserFails : Bool
  /-- the user it resolves with otherwise -/
  currentUser : User
  /-- value of `effects.browser.storage.get(TEAM_ID_LOCAL_STORAGE)` -/
  localStorageTeam : Option String
  /-- whether `actions.internal.trackCurrentTeams()` throws -/
  trackCurrentTeamsThrows : Bool
  /-- whether `actions.internal.showUserSurveyIfNeeded()` throws -/
  showUserSurveyThrows : Bool
  /-- whether `effects.live.getSocket()` rejects -/
  getSocketFails : Bool
  /-- result of `effects.http.get(...)` of the contributor list: `none` = fetch or
  parse failure, `some cs` = the parsed `contributors` array -/
  contributorsFetch : Option (List Contributor)
deriving Repr, DecidableEq

/-- Events of the effect trace emitted by the embedding of `withLoadApp`,
one per external call or state milestone, in program order. -/
inductive Ev where
  | addConnectionListener
  | setStoredSettings
  | codesandboxApiListen
  | clearSignedInCookie
  | deleteJwt
  | addNotification
  | getCurrentUser
  | setPatronPrice
  | identifySignedInTrue
  | setUserId
  | readLocalStorageTeam
  | trackCurrentTeams
  | showUserSurvey
  | getSocket
  | initializeUserNotifications
  | preloadTemplates
  | handleError
  | identifyAnonymous
  | setAnonymousId
  | continuation
  | setHasLoadedApp
  | httpGetContributors
deriving Repr, DecidableEq

/-- The three unconditional listener/settings registrations at the start of a
first bootstrap (`effects.connection.addListener`,
`actions.internal.setStoredSettings`, `effects.codesandboxApi.listen`). -/
def bootstrapEffects : List Ev :=
  [Ev.addConnectionListener, Ev.setStoredSettings, Ev.codesandboxApiListen]

/-- The `if (localStorage.jwt)` migration block: clear the `signedIn` cookie,
set `state.hasLogIn = false`, delete `localStorage.jwt`, and surface the
sticky "Session Expired" notification. -/
def jwtCheck (s : AppState) : AppState × List Ev :=
  if s.localStorageJwt then
    ({ s with signedInCookieCleared := true, hasLogIn := false, localStorageJwt := false },
     [Ev.clearSignedInCookie, Ev.deleteJwt, Ev.addNotification])
  else (s, [])

/-- The `if (state.hasLogIn) { try ... catch }` / `else` branch.  In the
logged-in branch any throw inside the `try` jumps to the `catch`, which calls
`actions.internal.handleError`; `trackCurrentTeams` alone sits in its own
inner `try` with an empty `catch`, so `env.trackCurrentTeamsThrows` changes
neither state nor trace.  The anonymous branch identifies to analytics as
signed-out and assigns an anonymous id. -/
def loginBranch (env : LEnv) (s : AppState) : AppState × List Ev :=
  if s.hasLogIn then
    if env.getCurrentUserFails then
      (s, [Ev.getCurrentUser, Ev.handleError])
    else
      let s1 : AppState := { s with user := some env.currentUser }
      let s2 : AppState :=
        match env.localStorageTeam with
        | some t => { s1 with dashboardActiveTeam := some t }
        | none => s1
      let t1 : List Ev :=
        [Ev.getCurrentUser, Ev.setPatronPrice, Ev.identifySignedInTrue, Ev.setUserId,
         Ev.readLocalStorageTeam, Ev.trackCurrentTeams, Ev.showUserSurvey]
      if env.showUserSurveyThrows then
        (s2, t1 ++ [Ev.handleError])
      else if env.getSocketFails then
        (s2, t1 ++ [Ev.getSocket, Ev.handleError])
      else
        ({ s2 with hasLogIn := true },
         t1 ++ [Ev.getSocket, Ev.initializeUserNotifications, Ev.preloadTemplates])
  else
    (s, [Ev.identifyAnonymous, Ev.setAnonymousId])

/-- Application of the optional continuation to the current state
(`if (continueAction) { await continueAction(context, value); }`). -/
def applyCont (cont : Option (AppState → AppState)) (s : AppState) : AppState :=
  match cont with
  | some f => f s
  | none => s

/-- The trace contribution of the optional continuation call. -/
def contTrace (cont : Option (AppState → AppState)) : List Ev :=
  match cont with
  | some _ => [Ev.continuation]
  | none => []

/-- The final `try { http.get(.all-contributorsrc) } catch {}` block: on a
successful fetch and parse, store the normalized contributor login names; a
failure leaves the state untouched (the empty `catch`). -/
def contribUpdate (env : LEnv) (s : AppState) : AppState :=
  match env.contributorsFetch with
  | some cs => { s with contributors := some (cs.map (fun c => c.login)) }
  | none => s

/-- Embedding of `withLoadApp(continueAction)` applied to `(context, value)`: the supplied
continuation is modelled as an opaque state transformer `cont` (with `none`
for the omitted argument); the wrapper emits `Ev.continuation` where the
source awaits it.  Returns the final state and the emitted effect trace;
`Ev.setHasLoadedApp` marks the
`state.hasLoadedApp = true; state.isAuthenticating = false` assignments. -/
def withLoadApp (cont : Option (AppState → AppState)) (env : LEnv) (s0 : AppState) :
    AppState × List Ev :=
  if s0.hasLoadedApp then
    match cont with
    | some f => (f s0, [Ev.continuation])
    | none => (s0, [])
  else
    let s1 : AppState := { s0 with isAuthenticating := true }
    let r2 := jwtCheck s1
    let r3 := loginBranch env r2.1
    let s4 := applyCont cont r3.1
    let s5 : AppState := { s4 with hasLoadedApp := true, isAuthenticating := false }
    (contribUpdate env s5,
     bootstrapEffects ++ r2.2 ++ r3.2 ++ contTrace cont
       ++ [Ev.setHasLoadedApp] ++ [Ev.httpGetContributors])

/-! ## `withOwnedSandbox` -/

/-- The fields of `state.editor.currentSandbox` read by the ownership gate.
Authorization levels are opaque strings, tested only through the imported
`hasPermission` predicate (kept as a parameter below). -/
structure Sandbox where
  id : String
  owned : Bool
  authorization : String
  isFrozen : Bool
deriving Repr, DecidableEq

/-- The slice of overmind state read and written by `withOwnedSandbox`. -/
structure OSState where
  currentSandbox : Option Sandbox
  isForkingSandbox : Bool
  sessionFrozen : Bool
deriving Repr, DecidableEq

/-- Oracle for the external collaborators of the ownership gate: whether
`actions.editor.internal.forkSandbox` rejects, and the value the
`forkFrozenModal` promise resolves with (`none` = `undefined`). -/
structure OSEnv where
  forkFails : Bool
  modalResponse : Option String
deriving Repr, DecidableEq

/-- Events of the effect trace of the ownership gate. -/
inductive OSEv where
  | forkAttempt
  | openForkFrozenModal
  | cancellation
  | continuation
deriving Repr, DecidableEq

/-- Which of the two wrapped actions produced the return value of the gate. -/
inductive RunResult where
  | continued
  | cancelled
deriving Repr, DecidableEq

/-- The access-denial test of the gate: with no required permission, denial
is `!sandbox.owned`; with one, denial is
`!hasPermission(sandbox.authorization, requiredPermission)`. -/
def accessDenied (hasPerm : String → String → Bool)
    (requiredPermission : Option String) (sandbox : Sandbox) : Bool :=
  match requiredPermission with
  | none => !sandbox.owned
  | some p => !hasPerm sandbox.authorization p

/-- Embedding of `withOwnedSandbox(continueAction, cancelAction,
requiredPermission)` applied to `(context, payload)`.  `hasPerm` is the imported
`hasPermission(authorization, requiredPermission)` predicate, kept opaque;
`forkFn` is the opaque state effect of a successful
`actions.editor.internal.forkSandbox` call.  The result is `Except`-wrapped:
`.error` would be an exception escaping the wrapped action (both `forkSandbox`
call sites sit in `try`/`catch`, so none does), `.ok` carries the final state,
the trace, and which of continuation / cancellation produced the return
value. -/
def withOwnedSandbox (hasPerm : String → String → Bool)
    (requiredPermission : Option String) (forkFn : OSState → OSState)
    (env : OSEnv) (s : OSState) :
    Except Unit (OSState × List OSEv × RunResult) :=
  match s.currentSandbox with
  | none => Except.ok (s, [OSEv.continuation], RunResult.continued)
  | some sandbox =>
    if accessDenied hasPerm requiredPermission sandbox then
      if s.isForkingSandbox then
        Except.ok (s, [OSEv.cancellation], RunResult.cancelled)
      else if env.forkFails then
        Except.ok (s, [OSEv.forkAttempt, OSEv.cancellation], RunResult.cancelled)
      else
        Except.ok (forkFn s, [OSEv.forkAttempt, OSEv.continuation], RunResult.continued)
    else if sandbox.isFrozen && s.sessionFrozen then
      if env.modalResponse = some "fork" then
        if env.forkFails then
          Except.ok (s, [OSEv.openForkFrozenModal, OSEv.forkAttempt, OSEv.cancellation],
            RunResult.cancelled)
        else
          Except.ok (forkFn s, [OSEv.openForkFrozenModal, OSEv.forkAttempt, OSEv.continuation],
            RunResult.continued)
      else if env.modalResponse = some "unfreeze" then
        Except.ok ({ s with sessionFrozen := false },
          [OSEv.openForkFrozenModal, OSEv.continuation], RunResult.continued)
      else if env.modalResponse = some "cancel" then
        Except.ok (s, [OSEv.openForkFrozenModal, OSEv.cancellation], RunResult.cancelled)
      else
        Except.ok (s, [OSEv.openForkFrozenModal, OSEv.continuation], RunResult.continued)
    else
      Except.ok (s, [OSEv.continuation], RunResult.continued)

/-! ## Concrete example inputs used by witnesses and counterexamples -/

/-- A fresh session: nothing loaded yet, user flagged as logged in, no
legacy `localStorage.jwt` token. -/
def s0loggedIn : AppState :=
  { hasLoadedApp := false, isAuthenticating := false, hasLogIn := true, user := none
    contributors := none, dashboardActiveTeam := none, localStorageJwt := false
    signedInCookieCleared := false }

/-- A fresh session flagged as logged in but carrying a legacy
`localStorage.jwt` token. -/
def s0jwt : AppState :=
  { hasLoadedApp := false, isAuthenticating := false, hasLogIn := true, user := none
    contributors := none, dashboardActiveTeam := none, localStorageJwt := true
    signedInCookieCleared := false }

/-- A session whose bootstrap has already completed. -/
def s0loaded : AppState :=
  { hasLoadedApp := true, isAuthenticating := false, hasLogIn := false, user := none
    contributors := none, dashboardActiveTeam := none, localStorageJwt := false
    signedInCookieCleared := false }

/-- An oracle where every external collaborator succeeds. -/
def envOk : LEnv :=
  { getCurrentUserFails := false, currentUser := { id := "uid", email := "mail" }
    localStorageTeam := none, trackCurrentTeamsThrows := false
    showUserSurveyThrows := false, getSocketFails := false, contributorsFetch := none }

/-- An oracle where only `actions.internal.showUserSurveyIfNeeded()`
throws. -/
def envSurveyThrows : LEnv :=
  { getCurrentUserFails := false, currentUser := { id := "uid", email := "mail" }
    localStorageTeam := none, trackCurrentTeamsThrows := false
    showUserSurveyThrows := true, getSocketFails := false, contributorsFetch := none }

/-! ## List helpers for the promise store -/

/-- Setting the freshly appended slot of a list overwrites exactly it. -/
theorem set_concat_self {α : Type} (l : List α) (a b : α) :
    (l ++ [a]).set l.length b = l ++ [b] := by
  induction l with
  | nil => rfl
  | cons x xs ih => simp [ih]

/-- Lookup of the freshly appended slot of a list. -/
theorem get_concat_self {α : Type} (l : List α) (b : α) :
    (l ++ [b]).get? l.length = some b := by
  induction l with
  | nil => rfl
  | cons x xs ih => simp [ih]

/-- Lookup left of the append boundary. -/
theorem get_append_left {α : Type} (l₁ l₂ : List α) (n : Nat) (h : n < l₁.length) :
    (l₁ ++ l₂).get? n = l₁.get? n := by
  induction l₁ generalizing n with
  | nil => simp at h
  | cons x xs ih =>
      cases n with
      | zero => rfl
      | succ m => simpa using ih m (by simpa using h)

/-! ## Modal claims -/

/--
**C1** (counterexample).  The claim says `close` with a payload resolves
the pending promise with the exact payload passed.  The source resolves
`payload || modal.result`, so a falsy payload falls back to the declared
default: for a modal with result type boolean, default `true`, closing with
payload `false` resolves the promise with `true`, not `false`.
-/
theorem close_falsy_payload_cex :
    (close (fun b => b) (some true) "m" (some false)
        (openModal "m" []
          (createModals ([("m", ⟨[], some true⟩)] : List (String × ModalDef Nat Bool)))).1).1.promises.get?
        (openModal "m" []
          (createModals ([("m", ⟨[], some true⟩)] : List (String × ModalDef Nat Bool)))).2
      ≠ some (PromiseStatus.resolved (some false)) ∧
    (close (fun b => b) (some true) "m" (some false)
        (openModal "m" []
          (createModals ([("m", ⟨[], some true⟩)] : List (String × ModalDef Nat Bool)))).1).1.promises.get?
        (openModal "m" []
          (createModals ([("m", ⟨[], some true⟩)] : List (String × ModalDef Nat Bool)))).2
      = some (PromiseStatus.resolved (some true)) := by
  constructor
  · decide
  · decide

/--
**C1** (amended).  After an `open` of a modal is pending, `close` does not
throw, sets the global current-modal selector to `null`, and resolves the
promise returned by that `open` call with `payload || modal.result`: the
exact payload when the payload is given and truthy, and the declared
default result when the payload is omitted or falsy.
-/
theorem close_after_open_resolves {V ρ : Type} (truthy : ρ → Bool)
    (defaultResult : Option ρ) (name : String) (newState : List (String × V))
    (payload : Option ρ) (s0 : ModalsState V ρ) :
    (close truthy defaultResult name payload (openModal name newState s0).1).2 = false ∧
    (close truthy defaultResult name payload (openModal name newState s0).1).1.current = none ∧
    (close truthy defaultResult name payload (openModal name newState s0).1).1.promises.get?
        (openModal name newState s0).2
      = some (PromiseStatus.resolved (closeValue truthy defaultResult payload)) := by
  simp [close, openModal, set_concat_self, get_concat_self]

/--
**C4**.  Opening modal `B` while modal `A` (distinct from `B`) is open and
unresolved makes `B` the single system-wide current modal and leaves the
promise returned by `open(A)` pending.
-/
theorem second_open_overrides_current {V ρ : Type} (A B : String)
    (stA stB : List (String × V)) (s0 : ModalsState V ρ) (_hAB : A ≠ B) :
    (openModal B stB (openModal A stA s0).1).1.current = some B ∧
    (openModal B stB (openModal A stA s0).1).1.promises.get? (openModal A stA s0).2
      = some PromiseStatus.pending := by
  refine ⟨rfl, ?_⟩
  show ((s0.promises ++ [PromiseStatus.pending]) ++ [PromiseStatus.pending]).get?
      s0.promises.length = some PromiseStatus.pending
  rw [get_append_left _ _ _ (by simp)]
  exact get_concat_self s0.promises PromiseStatus.pending

theorem second_open_overrides_current_witness :
    ("modalA" : String) ≠ "modalB" ∧
    ((openModal "modalB" [(("k" : String), (2 : Nat))]
        (openModal "modalA" [] (createModals ([] : List (String × ModalDef Nat Bool)))).1).1.current
        = some "modalB" ∧
      (openModal "modalB" [(("k" : String), (2 : Nat))]
        (openModal "modalA" [] (createModals ([] : List (String × ModalDef Nat Bool)))).1).1.promises.get?
        (openModal "modalA" [] (createModals ([] : List (String × ModalDef Nat Bool)))).2
        = some PromiseStatus.pending) :=
  ⟨by decide,
   second_open_overrides_current "modalA" "modalB" [] [(("k" : String), (2 : Nat))]
     (createModals ([] : List (String × ModalDef Nat Bool))) (by decide)⟩

/-- Opening only modals other than `name` never installs a resolver for
`name`. -/
theorem openSeq_resolvers_of_ne {V ρ : Type} (name : String)
    (ops : List (String × List (String × V))) (s : ModalsState V ρ)
    (h : ∀ op ∈ ops, op.1 ≠ name) :
    (openSeq ops s).resolvers name = s.resolvers name := by
  induction ops generalizing s with
  | nil => rfl
  | cons op rest ih =>
      have hop : op.1 ≠ name := h op (List.mem_cons_self op rest)
      have hrest : ∀ op2 ∈ rest, op2.1 ≠ name := fun op2 hm => h op2 (List.mem_cons_of_mem op hm)
      calc (openSeq (op :: rest) s).resolvers name
          = (openSeq rest (openModal op.1 op.2 s).1).resolvers name := rfl
        _ = (openModal op.1 op.2 s).1.resolvers name := ih _ hrest
        _ = s.resolvers name := by
              have hne : ¬ (name = op.1) := fun h2 => hop h2.symm
              simp [openModal, hne]

/--
**C9**.  Invoking `close` on a modal on which no `open` has ever been
invoked (starting from the `createModals` initial state, after any sequence
of `open` calls on other modals) first sets the global current-modal
selector to `null` and then throws: the per-modal `resolver` variable is
still `undefined` and the source calls it unconditionally.  `close` is not a
safe no-op here — the returned flag `true` is the thrown `TypeError`.
-/
theorem close_without_open_throws {V ρ : Type} (truthy : ρ → Bool)
    (defaultResult : Option ρ) (modals : List (String × ModalDef V ρ))
    (name : String) (payload : Option ρ)
    (ops : List (String × List (String × V)))
    (h : ∀ op ∈ ops, op.1 ≠ name) :
    close truthy defaultResult name payload (openSeq ops (createModals modals))
      = ({ openSeq ops (createModals modals) with current := none }, true) := by
  have hres : (openSeq ops (createModals modals)).resolvers name = none := by
    rw [openSeq_resolvers_of_ne name ops _ h]; rfl
  simp [close, hres]

theorem close_without_open_throws_witness :
    (∀ op ∈ ([("other", [])] : List (String × List (String × Nat))), op.1 ≠ "m") ∧
    close (fun (b : Bool) => b) (some true) "m" (some false)
        (openSeq ([("other", [])] : List (String × List (String × Nat)))
          (createModals ([("m", ⟨[], some true⟩)] : List (String × ModalDef Nat Bool))))
      = ({ openSeq ([("other", [])] : List (String × List (String × Nat)))
            (createModals ([("m", ⟨[], some true⟩)] : List (String × ModalDef Nat Bool)))
          with current := none }, true) :=
  ⟨by decide,
   close_without_open_throws (fun (b : Bool) => b) (some true)
     ([("m", ⟨[], some true⟩)] : List (String × ModalDef Nat Bool)) "m" (some false)
     ([("other", [])] : List (String × List (String × Nat))) (by decide)⟩

/-! ## `withLoadApp` support lemmas -/

/-- Branch equation: no legacy token present. -/
theorem jwtCheck_noToken (s : AppState) (h : s.localStorageJwt = false) :
    jwtCheck s = (s, []) := by
  simp [jwtCheck, h]

/-- Branch equation: a legacy token is present. -/
theorem jwtCheck_token (s : AppState) (h : s.localStorageJwt = true) :
    jwtCheck s =
      ({ s with signedInCookieCleared := true, hasLogIn := false, localStorageJwt := false },
       [Ev.clearSignedInCookie, Ev.deleteJwt, Ev.addNotification]) := by
  simp [jwtCheck, h]

/-- The bootstrap-completion marker is never emitted by the jwt block. -/
theorem setHasLoadedApp_not_mem_jwtCheck (s : AppState) :
    Ev.setHasLoadedApp ∉ (jwtCheck s).2 := by
  unfold jwtCheck
  split <;> simp

/-- The bootstrap-completion marker is never emitted by the login branch. -/
theorem setHasLoadedApp_not_mem_loginBranch (env : LEnv) (s : AppState) :
    Ev.setHasLoadedApp ∉ (loginBranch env s).2 := by
  cases h1 : s.hasLogIn <;> cases h2 : env.getCurrentUserFails <;>
    cases h3 : env.showUserSurveyThrows <;> cases h4 : env.getSocketFails <;>
    cases h5 : env.localStorageTeam <;>
    simp [loginBranch, h1, h2, h3, h4, h5]

/-- The continuation call emits only the continuation event. -/
theorem mem_contTrace (cont : Option (AppState → AppState)) (e : Ev)
    (h : e ∈ contTrace cont) : e = Ev.continuation := by
  cases cont with
  | none => simp [contTrace] at h
  | some f => simpa [contTrace] using h

/-- Branch equation: anonymous login branch. -/
theorem loginBranch_not_loggedIn (env : LEnv) (s : AppState) (h : s.hasLogIn = false) :
    loginBranch env s = (s, [Ev.identifyAnonymous, Ev.setAnonymousId]) := by
  simp [loginBranch, h]

/-- Trace equation: logged-in branch where the user-survey trigger throws —
the exception reaches the `catch` (`handleError`) and the remainder of the
logged-in sequence is skipped. -/
theorem loginBranch_trace_surveyThrows (env : LEnv) (s : AppState)
    (h1 : s.hasLogIn = true) (h2 : env.getCurrentUserFails = false)
    (h3 : env.showUserSurveyThrows = true) :
    (loginBranch env s).2 =
      [Ev.getCurrentUser, Ev.setPatronPrice, Ev.identifySignedInTrue, Ev.setUserId,
       Ev.readLocalStorageTeam, Ev.trackCurrentTeams, Ev.showUserSurvey, Ev.handleError] := by
  cases h5 : env.localStorageTeam <;> simp [loginBranch, h1, h2, h3, h5]

/-- Trace equation: logged-in branch with every step succeeding
(`trackCurrentTeams` may still throw: its inner `catch` swallows it). -/
theorem loginBranch_trace_ok (env : LEnv) (s : AppState)
    (h1 : s.hasLogIn = true) (h2 : env.getCurrentUserFails = false)
    (h3 : env.showUserSurveyThrows = false) (h4 : env.getSocketFails = false) :
    (loginBranch env s).2 =
      [Ev.getCurrentUser, Ev.setPatronPrice, Ev.identifySignedInTrue, Ev.setUserId,
       Ev.readLocalStorageTeam, Ev.trackCurrentTeams, Ev.showUserSurvey, Ev.getSocket,
       Ev.initializeUserNotifications, Ev.preloadTemplates] := by
  cases h5 : env.localStorageTeam <;> simp [loginBranch, h1, h2, h3, h4, h5]

/-- `contribUpdate` never touches the bootstrap flags. -/
theorem contribUpdate_hasLoadedApp (env : LEnv) (s : AppState) :
    (contribUpdate env s).hasLoadedApp = s.hasLoadedApp := by
  cases h : env.contributorsFetch <;> simp [contribUpdate, h]

/-- `contribUpdate` never touches the authentication flag. -/
theorem contribUpdate_isAuthenticating (env : LEnv) (s : AppState) :
    (contribUpdate env s).isAuthenticating = s.isAuthenticating := by
  cases h : env.contributorsFetch <;> simp [contribUpdate, h]

/-! ## `withLoadApp` claims -/

/--
**C2**.  On a first invocation (`hasLoadedApp` initially false) the final
state has `hasLoadedApp = true` and `isAuthenticating = false` for every
oracle — in particular when the login sequence fails — and the emitted trace
splits around the single `setHasLoadedApp` assignment marker so that every
bootstrap side effect, and the continuation when one was supplied, occurs
strictly before it; only the best-effort contributor fetch follows it.
-/
theorem withLoadApp_first_run (cont : Option (AppState → AppState)) (env : LEnv)
    (s0 : AppState) (h : s0.hasLoadedApp = false) :
    (withLoadApp cont env s0).1.hasLoadedApp = true ∧
    (withLoadApp cont env s0).1.isAuthenticating = false ∧
    ∃ pre post,
      (withLoadApp cont env s0).2 = pre ++ Ev.setHasLoadedApp :: post ∧
      Ev.setHasLoadedApp ∉ pre ∧
      (∀ e ∈ post, e = Ev.httpGetContributors) ∧
      (cont.isSome = true → Ev.continuation ∈ pre) := by
  have hrun : withLoadApp cont env s0 =
      (contribUpdate env
        { applyCont cont (loginBranch env (jwtCheck { s0 with isAuthenticating := true }).1).1 with
            hasLoadedApp := true, isAuthenticating := false },
       bootstrapEffects ++ (jwtCheck { s0 with isAuthenticating := true }).2
         ++ (loginBranch env (jwtCheck { s0 with isAuthenticating := true }).1).2
         ++ contTrace cont ++ [Ev.setHasLoadedApp] ++ [Ev.httpGetContributors]) := by
    simp [withLoadApp, h]
  rw [hrun]
  refine ⟨?_, ?_,
    bootstrapEffects ++ (jwtCheck { s0 with isAuthenticating := true }).2
      ++ (loginBranch env (jwtCheck { s0 with isAuthenticating := true }).1).2
      ++ contTrace cont,
    [Ev.httpGetContributors], ?_, ?_, ?_, ?_⟩
  · rw [contribUpdate_hasLoadedApp]
  · rw [contribUpdate_isAuthenticating]
  · simp [List.append_assoc]
  · intro hm
    rcases List.mem_append.1 hm with hm | hm
    · rcases List.mem_append.1 hm with hm | hm
      · rcases List.mem_append.1 hm with hm | hm
        · simp [bootstrapEffects] at hm
        · exact setHasLoadedApp_not_mem_jwtCheck _ hm
      · exact setHasLoadedApp_not_mem_loginBranch _ _ hm
    · exact absurd (mem_contTrace cont _ hm) (by simp)
  · intro e he
    simpa using he
  · intro hc
    cases cont with
    | none => simp at hc
    | some f =>
        refine List.mem_append.2 (Or.inr ?_)
        simp [contTrace]

theorem withLoadApp_first_run_witness :
    s0loggedIn.hasLoadedApp = false ∧
    ((withLoadApp (some (fun s => s)) envOk s0loggedIn).1.hasLoadedApp = true ∧
     (withLoadApp (some (fun s => s)) envOk s0loggedIn).1.isAuthenticating = false ∧
     ∃ pre post,
       (withLoadApp (some (fun s => s)) envOk s0loggedIn).2
         = pre ++ Ev.setHasLoadedApp :: post ∧
       Ev.setHasLoadedApp ∉ pre ∧
       (∀ e ∈ post, e = Ev.httpGetContributors) ∧
       ((some (fun s => s) : Option (AppState → AppState)).isSome = true →
         Ev.continuation ∈ pre)) :=
  ⟨rfl, withLoadApp_first_run (some (fun s => s)) envOk s0loggedIn rfl⟩

/--
**C5**.  Invoking the gate when `hasLoadedApp` is already true performs no
bootstrap side effect and changes no state on its own: with a continuation
supplied the run is exactly the continuation applied to the unchanged state
with only the continuation event in the trace, and without one the run
returns the state unchanged with an empty trace.
-/
theorem withLoadApp_already_loaded (f : AppState → AppState) (env : LEnv)
    (s0 : AppState) (h : s0.hasLoadedApp = true) :
    withLoadApp (some f) env s0 = (f s0, [Ev.continuation]) ∧
    withLoadApp none env s0 = (s0, []) := by
  constructor <;> simp [withLoadApp, h]

theorem withLoadApp_already_loaded_witness :
    s0loaded.hasLoadedApp = true ∧
    (withLoadApp (some (fun s => s)) envOk s0loaded
        = ((fun (s : AppState) => s) s0loaded, [Ev.continuation]) ∧
     withLoadApp none envOk s0loaded = (s0loaded, [])) :=
  ⟨rfl, withLoadApp_already_loaded (fun s => s) envOk s0loaded rfl⟩

/--
**C10**.  On a first invocation with a legacy `localStorage.jwt` token
present, the jwt block sets `hasLogIn` to false before the login branch is
evaluated — whatever `hasLogIn` was on entry — so the current-user profile
fetch and the rest of the logged-in sequence never run and the anonymous
branch (anonymous analytics identification and anonymous id assignment)
runs instead.
-/
theorem withLoadApp_jwt_anonymous (cont : Option (AppState → AppState)) (env : LEnv)
    (s0 : AppState) (h1 : s0.hasLoadedApp = false) (h2 : s0.localStorageJwt = true) :
    (jwtCheck { s0 with isAuthenticating := true }).1.hasLogIn = false ∧
    Ev.identifyAnonymous ∈ (withLoadApp cont env s0).2 ∧
    Ev.setAnonymousId ∈ (withLoadApp cont env s0).2 ∧
    Ev.getCurrentUser ∉ (withLoadApp cont env s0).2 ∧
    Ev.setUserId ∉ (withLoadApp cont env s0).2 ∧
    Ev.getSocket ∉ (withLoadApp cont env s0).2 ∧
    Ev.preloadTemplates ∉ (withLoadApp cont env s0).2 := by
  have hj := jwtCheck_token { s0 with isAuthenticating := true } h2
  have hl : (jwtCheck { s0 with isAuthenticating := true }).1.hasLogIn = false := by
    rw [hj]
  have hjt : (jwtCheck { s0 with isAuthenticating := true }).2
      = [Ev.clearSignedInCookie, Ev.deleteJwt, Ev.addNotification] := by
    rw [hj]
  have hlb := loginBranch_not_loggedIn env (jwtCheck { s0 with isAuthenticating := true }).1 hl
  have hlt : (loginBranch env (jwtCheck { s0 with isAuthenticating := true }).1).2
      = [Ev.identifyAnonymous, Ev.setAnonymousId] := by
    rw [hlb]
  have htr : (withLoadApp cont env s0).2 =
      bootstrapEffects ++ [Ev.clearSignedInCookie, Ev.deleteJwt, Ev.addNotification]
        ++ [Ev.identifyAnonymous, Ev.setAnonymousId] ++ contTrace cont
        ++ [Ev.setHasLoadedApp] ++ [Ev.httpGetContributors] := by
    simp only [withLoadApp]
    rw [if_neg (by simp [h1])]
    simp [hjt, hlt]
  refine ⟨hl, ?_, ?_, ?_, ?_, ?_, ?_⟩ <;> rw [htr] <;> cases cont <;>
    simp [contTrace, bootstrapEffects]

theorem withLoadApp_jwt_anonymous_witness :
    (s0jwt.hasLoadedApp = false ∧ s0jwt.localStorageJwt = true) ∧
    ((jwtCheck { s0jwt with isAuthenticating := true }).1.hasLogIn = false ∧
     Ev.identifyAnonymous ∈ (withLoadApp none envOk s0jwt).2 ∧
     Ev.setAnonymousId ∈ (withLoadApp none envOk s0jwt).2 ∧
     Ev.getCurrentUser ∉ (withLoadApp none envOk s0jwt).2 ∧
     Ev.setUserId ∉ (withLoadApp none envOk s0jwt).2 ∧
     Ev.getSocket ∉ (withLoadApp none envOk s0jwt).2 ∧
     Ev.preloadTemplates ∉ (withLoadApp none envOk s0jwt).2) :=
  ⟨⟨rfl, rfl⟩, withLoadApp_jwt_anonymous none envOk s0jwt rfl rfl⟩

/--
**C3** (counterexample).  The claim says a failure raised by the user-survey
trigger is swallowed silently and not routed to the centralized error
handler.  In the source `showUserSurveyIfNeeded()` is not wrapped in its own
`try` (unlike `trackCurrentTeams()`), so its exception reaches the login
sequence `catch`, which calls `actions.internal.handleError` — and the rest
of the logged-in sequence (`getSocket`, …) is skipped.
-/
theorem survey_failure_not_silent_cex :
    Ev.handleError ∈ (withLoadApp none envSurveyThrows s0loggedIn).2 ∧
    Ev.getSocket ∉ (withLoadApp none envSurveyThrows s0loggedIn).2 := by
  decide

/--
**C3** (amended).  During the logged-in branch of a first invocation, a
failure raised by the user-survey trigger is caught by the login-sequence
`try`/`catch` and routed to the centralized error handler, aborting the
remainder of the logged-in sequence — unlike team-tracking failures, whose
inner empty `catch` swallows them: when the survey trigger does not throw
(and the other login steps succeed), no error is routed, whether or not
`trackCurrentTeams` throws.
-/
theorem survey_failure_routed (cont : Option (AppState → AppState)) (env : LEnv)
    (s0 : AppState) (h0 : s0.hasLoadedApp = false) (h1 : s0.localStorageJwt = false)
    (h2 : s0.hasLogIn = true) (h3 : env.getCurrentUserFails = false) :
    (env.showUserSurveyThrows = true →
       Ev.handleError ∈ (withLoadApp cont env s0).2 ∧
       Ev.getSocket ∉ (withLoadApp cont env s0).2) ∧
    (env.showUserSurveyThrows = false → env.getSocketFails = false →
       Ev.handleError ∉ (withLoadApp cont env s0).2) := by
  have hj := jwtCheck_noToken { s0 with isAuthenticating := true } h1
  have hjt : (jwtCheck { s0 with isAuthenticating := true }).2 = [] := by rw [hj]
  have hl2 : (jwtCheck { s0 with isAuthenticating := true }).1.hasLogIn = true := by
    rw [hj]; exact h2
  constructor
  · intro hs
    have hlt := loginBranch_trace_surveyThrows env _ hl2 h3 hs
    have htr : (withLoadApp cont env s0).2 =
        bootstrapEffects ++ []
          ++ [Ev.getCurrentUser, Ev.setPatronPrice, Ev.identifySignedInTrue, Ev.setUserId,
              Ev.readLocalStorageTeam, Ev.trackCurrentTeams, Ev.showUserSurvey, Ev.handleError]
          ++ contTrace cont ++ [Ev.setHasLoadedApp] ++ [Ev.httpGetContributors] := by
      simp only [withLoadApp]
      rw [if_neg (by simp [h0])]
      simp [hjt, hlt]
    rw [htr]
    constructor
    · simp
    · cases cont <;> simp [contTrace, bootstrapEffects]
  · intro hs hg
    have hlt := loginBranch_trace_ok env _ hl2 h3 hs hg
    have htr : (withLoadApp cont env s0).2 =
        bootstrapEffects ++ []
          ++ [Ev.getCurrentUser, Ev.setPatronPrice, Ev.identifySignedInTrue, Ev.setUserId,
              Ev.readLocalStorageTeam, Ev.trackCurrentTeams, Ev.showUserSurvey, Ev.getSocket,
              Ev.initializeUserNotifications, Ev.preloadTemplates]
          ++ contTrace cont ++ [Ev.setHasLoadedApp] ++ [Ev.httpGetContributors] := by
      simp only [withLoadApp]
      rw [if_neg (by simp [h0])]
      simp [hjt, hlt]
    rw [htr]
    cases cont <;> simp [contTrace, bootstrapEffects]

theorem survey_failure_routed_witness :
    (s0loggedIn.hasLoadedApp = false ∧ s0loggedIn.localStorageJwt = false ∧
     s0loggedIn.hasLogIn = true ∧ envSurveyThrows.getCurrentUserFails = false) ∧
    ((envSurveyThrows.showUserSurveyThrows = true →
       Ev.handleError ∈ (withLoadApp none envSurveyThrows s0loggedIn).2 ∧
       Ev.getSocket ∉ (withLoadApp none envSurveyThrows s0loggedIn).2) ∧
     (envSurveyThrows.showUserSurveyThrows = false →
       envSurveyThrows.getSocketFails = false →
       Ev.handleError ∉ (withLoadApp none envSurveyThrows s0loggedIn).2)) :=
  ⟨⟨rfl, rfl, rfl, rfl⟩, survey_failure_routed none envSurveyThrows s0loggedIn rfl rfl rfl rfl⟩

/-! ## `withOwnedSandbox` claims -/

/--
**C6** (counterexample).  The claim says that with no required permission,
an existing owned sandbox always makes the continuation run with no fork
attempted.  But when the owned sandbox is frozen and the session freeze
override is active, the gate opens the freeze-prompt modal instead: if the
modal resolves with `"cancel"`, the cancellation action runs and the
continuation never does (and with `"fork"` a fork would be attempted).
-/
theorem owned_frozen_cancel_cex :
    withOwnedSandbox (fun _ _ => true) none (fun s => s) ⟨false, some "cancel"⟩
        ⟨some ⟨"sandbox1", true, "owner", true⟩, false, true⟩
      = Except.ok ((⟨some ⟨"sandbox1", true, "owner", true⟩, false, true⟩ : OSState),
          [OSEv.openForkFrozenModal, OSEv.cancellation], RunResult.cancelled) := by
  rfl

/--
**C6** (amended).  With no required permission, when an active sandbox
exists, is owned by the current user, and is not both frozen and covered by
an active session freeze override, the continuation action runs, no fork is
attempted, and no exception escapes.
-/
theorem owned_no_permission_continues (hasPerm : String → String → Bool)
    (forkFn : OSState → OSState) (env : OSEnv) (s : OSState) (sandbox : Sandbox)
    (h1 : s.currentSandbox = some sandbox) (h2 : sandbox.owned = true)
    (h3 : (sandbox.isFrozen && s.sessionFrozen) = false) :
    withOwnedSandbox hasPerm none forkFn env s
      = Except.ok (s, [OSEv.continuation], RunResult.continued) := by
  simp [withOwnedSandbox, h1, accessDenied, h2, h3]

theorem owned_no_permission_continues_witness :
    ((⟨some ⟨"sandbox1", true, "owner", false⟩, false, false⟩ : OSState).currentSandbox
        = some ⟨"sandbox1", true, "owner", false⟩ ∧
      (⟨"sandbox1", true, "owner", false⟩ : Sandbox).owned = true ∧
      ((⟨"sandbox1", true, "owner", false⟩ : Sandbox).isFrozen &&
        (⟨some ⟨"sandbox1", true, "owner", false⟩, false, false⟩ : OSState).sessionFrozen) = false) ∧
    withOwnedSandbox (fun _ _ => true) none (fun s => s) ⟨false, none⟩
        ⟨some ⟨"sandbox1", true, "owner", false⟩, false, false⟩
      = Except.ok ((⟨some ⟨"sandbox1", true, "owner", false⟩, false, false⟩ : OSState),
          [OSEv.continuation], RunResult.continued) :=
  ⟨⟨rfl, rfl, rfl⟩,
   owned_no_permission_continues (fun _ _ => true) (fun s => s) ⟨false, none⟩
     ⟨some ⟨"sandbox1", true, "owner", false⟩, false, false⟩
     ⟨"sandbox1", true, "owner", false⟩ rfl rfl rfl⟩

/--
**C7**.  When an active sandbox exists and access is denied (no required
permission and the sandbox is not owned, or the required permission is not
satisfied), and either a fork is already in progress or the fork attempt
fails, the gate returns the result of the cancellation action, the
continuation never runs, and the fork failure is not propagated as a thrown
exception (the result is `Except.ok`).
-/
theorem denied_fork_failure_cancels (hasPerm : String → String → Bool)
    (requiredPermission : Option String) (forkFn : OSState → OSState)
    (env : OSEnv) (s : OSState) (sandbox : Sandbox)
    (h1 : s.currentSandbox = some sandbox)
    (h2 : accessDenied hasPerm requiredPermission sandbox = true)
    (h3 : s.isForkingSandbox = true ∨ env.forkFails = true) :
    ∃ t, withOwnedSandbox hasPerm requiredPermission forkFn env s
        = Except.ok (s, t, RunResult.cancelled) ∧ OSEv.continuation ∉ t := by
  by_cases hf : s.isForkingSandbox = true
  · exact ⟨[OSEv.cancellation], by simp [withOwnedSandbox, h1, h2, hf], by simp⟩
  · have hf2 : s.isForkingSandbox = false := by
      simpa using hf
    have hff : env.forkFails = true := h3.resolve_left hf
    exact ⟨[OSEv.forkAttempt, OSEv.cancellation],
      by simp [withOwnedSandbox, h1, h2, hf2, hff], by simp⟩

theorem denied_fork_failure_cancels_witness :
    ((⟨some ⟨"sandbox2", false, "read", false⟩, false, false⟩ : OSState).currentSandbox
        = some ⟨"sandbox2", false, "read", false⟩ ∧
      accessDenied (fun _ _ => false) (some "write_code") ⟨"sandbox2", false, "read", false⟩
        = true ∧
      ((⟨some ⟨"sandbox2", false, "read", false⟩, false, false⟩ : OSState).isForkingSandbox = true ∨
        (⟨true, none⟩ : OSEnv).forkFails = true)) ∧
    ∃ t, withOwnedSandbox (fun _ _ => false) (some "write_code") (fun s => s) ⟨true, none⟩
          ⟨some ⟨"sandbox2", false, "read", false⟩, false, false⟩
        = Except.ok ((⟨some ⟨"sandbox2", false, "read", false⟩, false, false⟩ : OSState),
            t, RunResult.cancelled) ∧ OSEv.continuation ∉ t :=
  ⟨⟨rfl, rfl, Or.inr rfl⟩,
   denied_fork_failure_cancels (fun _ _ => false) (some "write_code") (fun s => s) ⟨true, none⟩
     ⟨some ⟨"sandbox2", false, "read", false⟩, false, false⟩
     ⟨"sandbox2", false, "read", false⟩ rfl rfl (Or.inr rfl)⟩

/--
**C8**.  When an active sandbox exists, access is not denied, the sandbox is
frozen and the session freeze override is active, the freeze-prompt modal is
opened; if it resolves with `"unfreeze"`, the session freeze override is
cleared (`sessionFrozen := false`) and the continuation action runs.
-/
theorem frozen_unfreeze_continues (hasPerm : String → String → Bool)
    (requiredPermission : Option String) (forkFn : OSState → OSState)
    (env : OSEnv) (s : OSState) (sandbox : Sandbox)
    (h1 : s.currentSandbox = some sandbox)
    (h2 : accessDenied hasPerm requiredPermission sandbox = false)
    (h3 : sandbox.isFrozen = true) (h4 : s.sessionFrozen = true)
    (h5 : env.modalResponse = some "unfreeze") :
    withOwnedSandbox hasPerm requiredPermission forkFn env s
      = Except.ok ({ s with sessionFrozen := false },
          [OSEv.openForkFrozenModal, OSEv.continuation], RunResult.continued) := by
  simp +decide [withOwnedSandbox, h1, h2, h3, h4, h5]

theorem frozen_unfreeze_continues_witness :
    ((⟨some ⟨"sandbox3", true, "owner", true⟩, false, true⟩ : OSState).currentSandbox
        = some ⟨"sandbox3", true, "owner", true⟩ ∧
      accessDenied (fun _ _ => true) none ⟨"sandbox3", true, "owner", true⟩ = false ∧
      (⟨"sandbox3", true, "owner", true⟩ : Sandbox).isFrozen = true ∧
      (⟨some ⟨"sandbox3", true, "owner", true⟩, false, true⟩ : OSState).sessionFrozen = true ∧
      (⟨false, some "unfreeze"⟩ : OSEnv).modalResponse = some "unfreeze") ∧
    withOwnedSandbox (fun _ _ => true) none (fun s => s) ⟨false, some "unfreeze"⟩
        ⟨some ⟨"sandbox3", true, "owner", true⟩, false, true⟩
      = Except.ok (({ (⟨some ⟨"sandbox3", true, "owner", true⟩, false, true⟩ : OSState)
            with sessionFrozen := false }),
          [OSEv.openForkFrozenModal, OSEv.continuation], RunResult.continued) :=
  ⟨⟨rfl, rfl, rfl, rfl, rfl⟩,
   frozen_unfreeze_continues (fun _ _ => true) none (fun s => s) ⟨false, some "unfreeze"⟩
     ⟨some ⟨"sandbox3", true, "owner", true⟩, false, true⟩
     ⟨"sandbox3", true, "owner", true⟩ rfl rfl rfl rfl rfl⟩
